import Mathlib

/-!
Verification development for the `vstface` screenshot tool.

The repository is a macOS command-line tool that loads a VST3 plugin bundle,
opens its editor in an off-screen host window and captures a PNG screenshot.
We give a shallow embedding of the orchestration logic of
`src/ScreenshotHost.hpp` (the combined header/implementation file),
`src/EditorHostRunner.mm` and the CLI `main`.  Calls into the vendor SDK and
the OS are modelled by explicit environment records recording the outcome of
each external call; every embedded function returns its C++ result together
with a trace of the externally visible actions it performed (stderr lines,
window operations, file writes, context registration), in program order.
-/

namespace Vstface

/-- The VST3 SDK's audio-effect category string `kVstAudioEffectClass`;
class selection in the source compares category strings against it. -/
def kVstAudioEffectClass : String := "Audio Module Class"

/-- Per-class metadata exposed by a module factory (`VST3::Hosting::ClassInfo`):
the class name, its category string, and its class identifier rendered as a
string (`info.ID().toString()`). -/
structure ClassInfo where
  name : String
  category : String
  uid : String
deriving DecidableEq

/-- `vstface::ScreenshotOptions` from `ScreenshotHost.hpp`: initial window
width and height and an optional class-name filter (empty string = absent). -/
structure ScreenshotOptions where
  width : Int := 1024
  height : Int := 768
  classNameFilter : String := ""
deriving DecidableEq

/-- Externally visible actions of the tool, in program order.  Each
constructor corresponds to one concrete effect performed by the source. -/
inductive Ev
  /-- a free-text diagnostic line printed to standard error via `fprintf` or
  `std::cerr` -/
  | stderrLine (msg : String)
  /-- the dynamically resolved `CGWindowListCreateImage` compositor call was
  invoked -/
  | snapshotCall
  /-- the content view was rendered via
  `bitmapImageRepForCachingDisplayInRect` / `cacheDisplayInRect` -/
  | cachingRender
  /-- the content view was rendered via manual bitmap allocation plus
  `displayRectIgnoringOpacity` on an explicit graphics context -/
  | manualRender
  /-- `[pngData writeToFile:... atomically:YES]` was attempted on the output
  path, with the boolean outcome the call returned -/
  | pngWrite (ok : Bool)
  /-- `EditorHostRunner::open` was invoked with the given optional class UID -/
  | modernOpen (uid : Option String)
  /-- the embedded EditorHost application created a platform window during
  `application->init` -/
  | platformWindowCreate
  /-- `application->terminate()` was called on the EditorHost application -/
  | runnerTerminate
  /-- `[nsWindow orderOut:nil]` inside `EditorHostRunner::close` -/
  | runnerOrderOut
  /-- `[nsWindow close]` inside `EditorHostRunner::close` -/
  | runnerWindowClose
  /-- `EmbeddedPlatform::instance().clearWindow()` (platform window
  registration cleared) -/
  | platformClear
  /-- `captureWithLegacyHost` was invoked, with the class-name filter it was
  given (via `opts`) -/
  | legacyCall (filter : String)
  /-- `PluginContextGuard` constructor: the process-wide VST3 plugin context
  was set -/
  | ctxSet
  /-- `PluginContextGuard` destructor: the process-wide VST3 plugin context
  was cleared to null -/
  | ctxClear
  /-- `controller->setComponentHandler(&componentHandler)` (handler
  installed) -/
  | handlerSet
  /-- a titled `NSWindow` was allocated by the legacy host path -/
  | windowCreate
  /-- `view->setFrame(&plugFrame)` (frame handler installed) -/
  | frameSet
  /-- `view->attached(nsViewPtr, kPlatformTypeNSView)` succeeded -/
  | viewAttached
  /-- `[window setContentSize:...]` after querying the view's preferred
  size -/
  | windowResize
  /-- `view->removed()` (editor view detached) -/
  | viewRemoved
  /-- `view->setFrame(nullptr)` (frame handler cleared) -/
  | frameCleared
  /-- `controller->setComponentHandler(nullptr)` (component handler
  cleared) -/
  | handlerCleared
  /-- `[window orderOut:nil]` on the capture window (window hidden) -/
  | windowOrderOut
deriving DecidableEq

/-- The loop body of `resolveClassFilterToUid`: scan the factory's class
infos, skip classes whose category is not the audio-effect category, and
return the UID of the first audio-effect class whose name equals the filter
exactly. -/
def resolveLoop : List ClassInfo → String → Option String
  | [], _ => none
  | info :: rest, className =>
    if info.category ≠ kVstAudioEffectClass then resolveLoop rest className
    else if info.name = className then some info.uid
    else resolveLoop rest className

/-- `resolveClassFilterToUid` from `ScreenshotHost.hpp`: load the module
(`moduleClasses = none` models `Module::create` failing) and resolve the
class-name filter to a UID; `some uid` models the C++ function returning
`true` with `outUid` set, `none` models it returning `false`. -/
def resolveClassFilterToUid (moduleClasses : Option (List ClassInfo))
    (className : String) : Option String :=
  match moduleClasses with
  | none => none
  | some infos => resolveLoop infos className

/-- The class-selection loop of `captureWithLegacyHost`: the first
audio-effect class, except that when a non-empty filter is supplied, an
audio-effect class whose name differs from the filter is skipped. -/
def legacySelectClass (filter : String) : List ClassInfo → Option ClassInfo
  | [] => none
  | info :: rest =>
    if info.category = kVstAudioEffectClass then
      if filter ≠ "" ∧ info.name ≠ filter then legacySelectClass filter rest
      else some info
    else legacySelectClass filter rest

/-- Whether an event is a stderr diagnostic line. -/
def Ev.isStderrLine : Ev → Bool
  | .stderrLine _ => true
  | _ => false

/-- Whether an event is an invocation of the modern host path
(`EditorHostRunner::open`). -/
def Ev.isModernOpen : Ev → Bool
  | .modernOpen _ => true
  | _ => false

/-- Whether an event is an invocation of the legacy host path
(`captureWithLegacyHost`). -/
def Ev.isLegacyCall : Ev → Bool
  | .legacyCall _ => true
  | _ => false

/-- Whether an event is a PNG file-write attempt. -/
def Ev.isPngWrite : Ev → Bool
  | .pngWrite _ => true
  | _ => false

/-- Whether an event is one of the runner/platform actions that
`EditorHostRunner::open` and `EditorHostRunner::close` can perform. -/
def Ev.isRunnerEv : Ev → Bool
  | .runnerTerminate => true
  | .runnerOrderOut => true
  | .runnerWindowClose => true
  | .platformClear => true
  | .platformWindowCreate => true
  | _ => false

/-- Whether an event is one of the actions `captureWindowToFile` can
perform. -/
def Ev.isCaptureEv : Ev → Bool
  | .snapshotCall => true
  | .cachingRender => true
  | .manualRender => true
  | .pngWrite _ => true
  | .stderrLine _ => true
  | _ => false

/-- The diagnostic `captureWindowToFile` prints when the compositor
snapshot call returns no image. -/
def snapshotDiag : String :=
  "CGWindowListCreateImage returned NULL; ensure screen recording permission is granted."

/-- Environment of one `captureWindowToFile` call: outcomes of the OS calls
it performs.  `captureFnAvailable` models `dlsym` finding
`CGWindowListCreateImage`; `snapshotImage` models that call returning a
non-null image; `cachingRepAvailable` models
`bitmapImageRepForCachingDisplayInRect` returning a non-nil rep;
`boundsWidth`/`boundsHeight` are the integer-truncated view bounds;
`manualRepAllocated` models the manual `NSBitmapImageRep` allocation
succeeding; `writeSucceeds` is the result of `writeToFile`. -/
structure CaptureEnv where
  captureFnAvailable : Bool
  snapshotImage : Bool
  cachingRepAvailable : Bool
  boundsWidth : Int
  boundsHeight : Int
  manualRepAllocated : Bool
  writeSucceeds : Bool
deriving DecidableEq

/-- The PNG-encoding and file-writing tail of `captureWindowToFile`: the
write is attempted, and on failure only the diagnostic `Failed to write PNG`
is printed. -/
def writeStage (env : CaptureEnv) : List Ev :=
  [.pngWrite env.writeSucceeds] ++
    (if env.writeSucceeds then [] else [.stderrLine "Failed to write PNG"])

/-- `captureWindowToFile` from `ScreenshotHost.hpp` (lines 259-371):
null-window/view guard, compositor-snapshot attempt via the dynamically
resolved `CGWindowListCreateImage`, fall-through to
caching-display rendering, then to manual bitmap allocation plus explicit
graphics-context rendering, and finally PNG encoding and file write.  The
returned boolean is the C++ result; the list is the trace of effects. -/
def captureWindowToFile (env : CaptureEnv)
    (windowPresent contentViewPresent : Bool) : Bool × List Ev :=
  if !windowPresent || !contentViewPresent then (false, [])
  else
    let snapEvents : List Ev :=
      if env.captureFnAvailable then
        if env.snapshotImage then [.snapshotCall]
        else [.snapshotCall, .stderrLine snapshotDiag]
      else []
    if env.captureFnAvailable && env.snapshotImage then
      (true, snapEvents ++ writeStage env)
    else if env.cachingRepAvailable then
      (true, snapEvents ++ [.cachingRender] ++ writeStage env)
    else if env.boundsWidth ≤ 0 ∨ env.boundsHeight ≤ 0 then
      (false, snapEvents ++ [.stderrLine "Invalid view bounds for capture"])
    else if !env.manualRepAllocated then
      (false, snapEvents ++ [.stderrLine "Failed to allocate bitmap rep"])
    else
      (true, snapEvents ++ [.manualRender] ++ writeStage env)

/-- The pointer state of an `EditorHostRunner`: whether `activeWindow`
(the EditorHost `WindowPtr`), `nsWindow` and `nsContentView` are non-null. -/
structure RunnerState where
  activeWindow : Bool
  nsWindow : Bool
  nsContentView : Bool
deriving DecidableEq

/-- A default-constructed `EditorHostRunner`: all three members null. -/
def RunnerState.initial : RunnerState := ⟨false, false, false⟩

/-- Environment of one `EditorHostRunner::open` call: outcomes of the calls
into the embedded EditorHost application and platform.  `appAvailable`
models `getEditorHostApplication()` returning non-null; `initThrows` models
`application->init(args)` throwing (an `EditorHostError` raised by the
platform's `kill`, or any other exception); `windowCreated` models
`EmbeddedPlatform::currentWindow()` being non-null after `init`;
`nativePtrPresent` and `nativeTypeNSView` describe
`getNativePlatformWindow()`; `viewHasWindow` models `[nsContentView window]`
returning non-null. -/
structure OpenEnv where
  appAvailable : Bool
  initThrows : Bool
  windowCreated : Bool
  nativePtrPresent : Bool
  nativeTypeNSView : Bool
  viewHasWindow : Bool
deriving DecidableEq

/-- `EditorHostRunner::close` (EditorHostRunner.mm lines 171-191): a no-op
when all three members are already null, otherwise terminate the host
application (when available), order out and close the `NSWindow` (when
present), clear the platform window registration and null all members. -/
def EditorHostRunner.close (appAvailable : Bool) (s : RunnerState) :
    RunnerState × List Ev :=
  if !s.activeWindow && !s.nsWindow && !s.nsContentView then (s, [])
  else
    (RunnerState.initial,
      (if appAvailable then [Ev.runnerTerminate] else []) ++
      (if s.nsWindow then [Ev.runnerOrderOut, Ev.runnerWindowClose] else []) ++
      [Ev.platformClear])

/-- The `cleanupOnFailure` lambda of `EditorHostRunner::open`
(EditorHostRunner.mm lines 104-112): clear the platform window
registration, null all runner members, and terminate the application when
it is available.  Note it performs no order-out or close on any window. -/
def cleanupOnFailure (appAvailable : Bool) : RunnerState × List Ev :=
  (RunnerState.initial,
    [Ev.platformClear] ++ (if appAvailable then [Ev.runnerTerminate] else []))

/-- Result of `EditorHostRunner::open`: the returned boolean, the runner's
member state afterwards, the effect trace, and the `errorMessage`
out-parameter (empty when none was written). -/
structure OpenResult where
  ok : Bool
  state : RunnerState
  events : List Ev
  errorMessage : String
deriving DecidableEq

/-- `EditorHostRunner::open` (EditorHostRunner.mm lines 93-159): close any
previous session, check for the application, run `application->init` with
the constructed argument list, recover the platform window, check its
native handle is an NSView and that the view has an `NSWindow`; every
failure after the application check runs `cleanupOnFailure`. -/
def EditorHostRunner.open (env : OpenEnv) (s : RunnerState) : OpenResult :=
  let closed := EditorHostRunner.close env.appAvailable s
  if !env.appAvailable then
    ⟨false, closed.1, closed.2, "EditorHost application is not available"⟩
  else if env.initThrows then
    let c := cleanupOnFailure true
    ⟨false, c.1, closed.2 ++ c.2, "init exception"⟩
  else
    let initEvents : List Ev :=
      if env.windowCreated then [Ev.platformWindowCreate] else []
    if !env.windowCreated then
      let c := cleanupOnFailure true
      ⟨false, c.1, closed.2 ++ initEvents ++ c.2,
        "EditorHost failed to create a window"⟩
    else if !env.nativePtrPresent || !env.nativeTypeNSView then
      let c := cleanupOnFailure true
      ⟨false, c.1, closed.2 ++ initEvents ++ c.2,
        "EditorHost window does not expose an NSView"⟩
    else if !env.viewHasWindow then
      let c := cleanupOnFailure true
      ⟨false, c.1, closed.2 ++ initEvents ++ c.2,
        "EditorHost view is missing an NSWindow"⟩
    else
      ⟨true, ⟨true, true, true⟩, closed.2 ++ initEvents, ""⟩

/-- Environment of one `captureWithLegacyHost` call beyond the module load:
`providerInitOk` models `provider.initialize()`, `controllerPresent` models
`provider.getControllerPtr()` being non-null, `viewCreated` models
`controller->createView(kEditor)` returning a view, `attachOk` models
`view->attached(...) == kResultOk`, `getSizeOk` models
`view->getSize(&vr) == kResultOk`, and `capture` is the environment of the
nested `captureWindowToFile` call. -/
structure LegacyEnv where
  providerInitOk : Bool
  controllerPresent : Bool
  viewCreated : Bool
  attachOk : Bool
  getSizeOk : Bool
  capture : CaptureEnv
deriving DecidableEq

/-- `captureWithLegacyHost` from `ScreenshotHost.hpp` (lines 375-478):
module load, class selection, `PluginContextGuard` construction (the
`ctxSet` event) whose RAII destructor emits `ctxClear` on every return path
after construction, provider initialization, controller check, component
handler installation, editor-view creation, window creation and frame
installation, attachment, preferred-size resize, nested capture, and the
teardown sequence before the final return. -/
def captureWithLegacyHost (moduleClasses : Option (List ClassInfo))
    (env : LegacyEnv) (opts : ScreenshotOptions) : Bool × List Ev :=
  match moduleClasses with
  | none => (false, [.stderrLine "Failed to load module"])
  | some infos =>
    match legacySelectClass opts.classNameFilter infos with
    | none => (false, [.stderrLine "No audio effect class"])
    | some _chosen =>
      if !env.providerInitOk then
        (false, [.ctxSet,
          .stderrLine "Failed to initialize plug-in component/controller",
          .ctxClear])
      else if !env.controllerPresent then
        (false, [.ctxSet, .stderrLine "No IEditController", .ctxClear])
      else if !env.viewCreated then
        (false, [.ctxSet, .handlerSet, .stderrLine "No editor view",
          .ctxClear])
      else if !env.attachOk then
        (false, [.ctxSet, .handlerSet, .windowCreate, .frameSet,
          .stderrLine "PlugView attach failed", .ctxClear])
      else
        let sizeEvents : List Ev := if env.getSizeOk then [.windowResize] else []
        let cap := captureWindowToFile env.capture true true
        (cap.1,
          [Ev.ctxSet, Ev.handlerSet, Ev.windowCreate, Ev.frameSet,
            Ev.viewAttached] ++ sizeEvents ++ cap.2 ++
          [Ev.viewRemoved, Ev.frameCleared, Ev.handlerCleared,
            Ev.windowOrderOut, Ev.ctxClear])

/-- Environment of one `ScreenshotHost::capturePlugin` call: the class list
of the plugin bundle's module (`none` = `Module::create` fails; the same
bundle is loaded by `resolveClassFilterToUid` and by the legacy path), the
environment of the `EditorHostRunner::open` attempt, the environment of the
modern path's `captureWindowToFile` call, and the environment of the legacy
path. -/
structure Env where
  moduleClasses : Option (List ClassInfo)
  openEnv : OpenEnv
  modernCapture : CaptureEnv
  legacy : LegacyEnv
deriving DecidableEq

/-- The `classUid` local of `ScreenshotHost::capturePlugin` together with
its early-exit condition: `some none` when no filter is supplied,
`some (some uid)` when the filter resolved to `uid`, and `none` when a
filter was supplied but `resolveClassFilterToUid` failed. -/
def resolvedUid (env : Env) (opts : ScreenshotOptions) : Option (Option String) :=
  if opts.classNameFilter = "" then some none
  else match resolveClassFilterToUid env.moduleClasses opts.classNameFilter with
    | some uid => some (some uid)
    | none => none

/-- `ScreenshotHost::capturePlugin` (ScreenshotHost.hpp lines 484-525):
resolve a non-empty class-name filter to a UID (returning `false`
immediately when resolution fails), try `EditorHostRunner::open` first; on
open success capture through the runner's window and close the runner via
`RunnerScopeGuard`; on open failure log the fallback message and call
`captureWithLegacyHost` with the same options, returning its result. -/
def capturePlugin (env : Env) (opts : ScreenshotOptions) : Bool × List Ev :=
  match resolvedUid env opts with
  | none => (false, [.stderrLine "class filter resolution failed"])
  | some classUid =>
    let openRes := EditorHostRunner.open env.openEnv RunnerState.initial
    if openRes.ok then
      if !openRes.state.nsWindow || !openRes.state.nsContentView then
        let closed := EditorHostRunner.close env.openEnv.appAvailable openRes.state
        (false, [Ev.modernOpen classUid] ++ openRes.events ++
          [Ev.stderrLine "EditorHost did not provide a capture window"] ++
          closed.2)
      else
        let cap := captureWindowToFile env.modernCapture
          openRes.state.nsWindow openRes.state.nsContentView
        let closed := EditorHostRunner.close env.openEnv.appAvailable openRes.state
        (cap.1, [Ev.modernOpen classUid] ++ openRes.events ++ cap.2 ++
          [Ev.windowOrderOut] ++ closed.2)
    else
      let legacyRes := captureWithLegacyHost env.moduleClasses env.legacy opts
      (legacyRes.1,
        [Ev.modernOpen classUid] ++ openRes.events ++
        [Ev.stderrLine "EditorHost failed to open; falling back to legacy host"] ++
        [Ev.legacyCall opts.classNameFilter] ++ legacyRes.2)

/-- The usage line printed by `main` when fewer than two positional
arguments are supplied. -/
def usageMessage : String := "Usage: vstface <plugin.vst3> <out.png>"

/-- `main` from the CLI translation unit (ScreenshotHost.mm part, lines
309-325): with `argc < 3` print the usage line to standard error and return
1; otherwise run `capturePlugin` with default options and map `false` to
exit status 2 and `true` to exit status 0. -/
def mainFn (args : List String) (env : Env) : Nat × List Ev :=
  if args.length < 3 then (1, [.stderrLine usageMessage])
  else
    let r := capturePlugin env {}
    (if r.1 then 0 else 2, r.2)

/-- VST3 `tresult` values used by the handler objects.  In the SDK
`kResultTrue` and `kResultOk` are the same value; we keep one constructor
for both. -/
inductive TResult
  | kResultOk
  | kResultFalse
  | kInvalidArgument
  | kNoInterface
deriving DecidableEq

/-- `kResultTrue` is the same SDK value as `kResultOk`. -/
def kResultTrue : TResult := TResult.kResultOk

/-- Interface identifier constants, abstracted to distinct naturals:
`IComponentHandler::iid`. -/
def iidIComponentHandler : Nat := 0

/-- Interface identifier constant `IPlugFrame::iid`. -/
def iidIPlugFrame : Nat := 1

/-- Interface identifier constant `FUnknown::iid`. -/
def iidFUnknown : Nat := 2

/-- What a `queryInterface` implementation stored through its output
pointer: the object itself or null. -/
inductive QIStored
  | self
  | nullObj
deriving DecidableEq

/-- Observable outcome of one `queryInterface` call: the returned
`tresult`, what was stored through `*obj` (`none` = the pointer was left
untouched), and whether `addRef` was called. -/
structure QIResult where
  result : TResult
  stored : Option QIStored
  addRefCalled : Bool
deriving DecidableEq

/-- `ScreenshotComponentHandler::queryInterface` (ScreenshotHost.hpp lines
187-200): null output pointer yields `kInvalidArgument`; the handler's own
iid or `FUnknown::iid` stores `this` (with an `addRef`) and returns
`kResultTrue`; any other iid stores null and returns `kNoInterface`. -/
def ScreenshotComponentHandler.queryInterface (iid : Nat)
    (objNonNull : Bool) : QIResult :=
  if !objNonNull then ⟨.kInvalidArgument, none, false⟩
  else if iid = iidIComponentHandler ∨ iid = iidFUnknown then
    ⟨kResultTrue, some .self, true⟩
  else ⟨.kNoInterface, some .nullObj, false⟩

/-- `ScreenshotPlugFrame::queryInterface` (ScreenshotHost.hpp lines
234-246): same shape as the component handler's, with `IPlugFrame::iid` as
the object's own interface. -/
def ScreenshotPlugFrame.queryInterface (iid : Nat)
    (objNonNull : Bool) : QIResult :=
  if !objNonNull then ⟨.kInvalidArgument, none, false⟩
  else if iid = iidIPlugFrame ∨ iid = iidFUnknown then
    ⟨kResultTrue, some .self, true⟩
  else ⟨.kNoInterface, some .nullObj, false⟩

/-- Whether an event touches the process-wide VST3 plugin context. -/
def Ev.isCtx : Ev → Bool
  | .ctxSet => true
  | .ctxClear => true
  | _ => false

/-- One step of replaying the plugin-context state over a trace: `ctxSet`
sets it, `ctxClear` clears it, every other event leaves it unchanged. -/
def ctxStep (c : Bool) : Ev → Bool
  | .ctxSet => true
  | .ctxClear => false
  | _ => c

/-- The value of the process-wide VST3 plugin context after replaying a
trace, starting from the cleared state. -/
def ctxAfter (evs : List Ev) : Bool :=
  evs.foldl ctxStep false

/-- A concrete capture environment in which the module fails to load, the
modern host path opens successfully, and the PNG file write fails. -/
def envWriteFailDemo : Env :=
  ⟨none, ⟨true, false, true, true, true, true⟩,
    ⟨true, true, true, 1, 1, true, false⟩,
    ⟨true, true, true, true, true, ⟨true, true, true, 1, 1, true, true⟩⟩⟩

/-! ### Helper lemmas about the event traces -/

theorem close_events_runner (app : Bool) (s : RunnerState) :
    (EditorHostRunner.close app s).2.all Ev.isRunnerEv = true := by
  obtain ⟨a, w, v⟩ := s
  cases app <;> cases a <;> cases w <;> cases v <;> rfl

theorem open_events_runner (env : OpenEnv) (s : RunnerState) :
    (EditorHostRunner.open env s).events.all Ev.isRunnerEv = true := by
  have hc := close_events_runner env.appAvailable s
  obtain ⟨a, b, c, d, f, g⟩ := env
  cases a <;> cases b <;> cases c <;> cases d <;> cases f <;> cases g <;>
    simp_all [EditorHostRunner.open, cleanupOnFailure, List.all_append,
      Ev.isRunnerEv]

theorem capture_events_capture (env : CaptureEnv) (w cv : Bool) :
    (captureWindowToFile env w cv).2.all Ev.isCaptureEv = true := by
  unfold captureWindowToFile writeStage
  cases w <;> cases cv <;> simp [Ev.isCaptureEv] <;>
    split_ifs <;> simp [Ev.isCaptureEv, List.all_append]

theorem capture_false_no_write (env : CaptureEnv) (w cv : Bool)
    (hf : (captureWindowToFile env w cv).1 = false) :
    (captureWindowToFile env w cv).2.all (fun e => !e.isPngWrite) = true := by
  unfold captureWindowToFile writeStage at hf ⊢
  cases w <;> cases cv <;> simp_all [Ev.isPngWrite] <;>
    split_ifs at hf ⊢ <;> simp_all [Ev.isPngWrite, List.all_append]

theorem allWeaken {l : List Ev} {p q : Ev → Bool} (h : l.all p = true)
    (himp : ∀ e, p e = true → q e = true) : l.all q = true := by
  rw [List.all_eq_true] at h ⊢
  exact fun e he => himp e (h e he)

theorem not_mem_of_all {l : List Ev} {p : Ev → Bool} {e : Ev}
    (h : l.all p = true) (he : p e = false) : e ∉ l := by
  intro hm
  rw [List.all_eq_true] at h
  exact absurd (h e hm) (by simp [he])

theorem foldl_ctxStep_of_no_ctx :
    ∀ (ys : List Ev) (c : Bool), ys.all (fun e => !e.isCtx) = true →
      ys.foldl ctxStep c = c := by
  intro ys
  induction ys with
  | nil => intro c _; rfl
  | cons y ys ih =>
    intro c h
    rw [List.all_cons, Bool.and_eq_true] at h
    have hy : ctxStep c y = c := by
      cases y <;> simp_all [Ev.isCtx, ctxStep]
    rw [List.foldl_cons, hy]
    exact ih c h.2

theorem capture_no_ctx (env : CaptureEnv) (w cv : Bool) :
    (captureWindowToFile env w cv).2.all (fun e => !e.isCtx) = true :=
  allWeaken (capture_events_capture env w cv)
    (fun e => by cases e <;> simp [Ev.isCaptureEv, Ev.isCtx])

theorem runner_no_ctx (env : OpenEnv) (s : RunnerState) :
    (EditorHostRunner.open env s).events.all (fun e => !e.isCtx) = true :=
  allWeaken (open_events_runner env s)
    (fun e => by cases e <;> simp [Ev.isRunnerEv, Ev.isCtx])

theorem close_no_ctx (app : Bool) (s : RunnerState) :
    (EditorHostRunner.close app s).2.all (fun e => !e.isCtx) = true :=
  allWeaken (close_events_runner app s)
    (fun e => by cases e <;> simp [Ev.isRunnerEv, Ev.isCtx])

theorem legacy_no_hostcalls (mod : Option (List ClassInfo)) (lenv : LegacyEnv)
    (opts : ScreenshotOptions) :
    (captureWithLegacyHost mod lenv opts).2.all
      (fun e => !e.isModernOpen && !e.isLegacyCall) = true := by
  have hcap2 : (captureWindowToFile lenv.capture true true).2.all
      (fun e => !e.isModernOpen && !e.isLegacyCall) = true :=
    allWeaken (capture_events_capture lenv.capture true true)
      (fun e => by
        cases e <;> simp [Ev.isCaptureEv, Ev.isModernOpen, Ev.isLegacyCall])
  cases mod with
  | none => simp [captureWithLegacyHost, Ev.isModernOpen, Ev.isLegacyCall]
  | some infos =>
    cases hsel : legacySelectClass opts.classNameFilter infos with
    | none => simp [captureWithLegacyHost, hsel, Ev.isModernOpen, Ev.isLegacyCall]
    | some chosen =>
      simp only [captureWithLegacyHost, hsel]
      split_ifs <;>
        simp_all [List.all_append, Ev.isModernOpen, Ev.isLegacyCall]

theorem runner_events_flags (env : OpenEnv) (s : RunnerState) :
    ∀ e ∈ (EditorHostRunner.open env s).events,
      e.isModernOpen = false ∧ e.isLegacyCall = false ∧
      e.isPngWrite = false ∧ e.isCtx = false := by
  intro e he
  have h := List.all_eq_true.mp (open_events_runner env s) e he
  cases e <;> simp_all [Ev.isRunnerEv, Ev.isModernOpen, Ev.isLegacyCall,
    Ev.isPngWrite, Ev.isCtx]

theorem close_events_flags (app : Bool) (s : RunnerState) :
    ∀ e ∈ (EditorHostRunner.close app s).2,
      e.isModernOpen = false ∧ e.isLegacyCall = false ∧
      e.isPngWrite = false ∧ e.isCtx = false := by
  intro e he
  have h := List.all_eq_true.mp (close_events_runner app s) e he
  cases e <;> simp_all [Ev.isRunnerEv, Ev.isModernOpen, Ev.isLegacyCall,
    Ev.isPngWrite, Ev.isCtx]

theorem capture_events_flags (env : CaptureEnv) (w cv : Bool) :
    ∀ e ∈ (captureWindowToFile env w cv).2,
      e.isModernOpen = false ∧ e.isLegacyCall = false ∧ e.isCtx = false := by
  intro e he
  have h := List.all_eq_true.mp (capture_events_capture env w cv) e he
  cases e <;> simp_all [Ev.isCaptureEv, Ev.isModernOpen, Ev.isLegacyCall,
    Ev.isCtx]

theorem legacy_events_flags (mod : Option (List ClassInfo)) (lenv : LegacyEnv)
    (opts : ScreenshotOptions) :
    ∀ e ∈ (captureWithLegacyHost mod lenv opts).2,
      e.isModernOpen = false ∧ e.isLegacyCall = false := by
  intro e he
  have h := List.all_eq_true.mp (legacy_no_hostcalls mod lenv opts) e he
  simp_all

theorem countP_zero_of_flags {l : List Ev} {p : Ev → Bool}
    (h : ∀ e ∈ l, p e = false) : l.countP p = 0 := by
  rw [List.countP_eq_zero]
  intro a ha
  simp [h a ha]

theorem ctxAfter_ends_clear (xs : List Ev) :
    ctxAfter (xs ++ [Ev.ctxClear]) = false := by
  simp [ctxAfter, List.foldl_append, ctxStep]

theorem ctxAfter_eq_false_of_no_ctx {l : List Ev}
    (h : l.all (fun e => !e.isCtx) = true) : ctxAfter l = false :=
  foldl_ctxStep_of_no_ctx l false h

theorem open_ok_state (env : OpenEnv) (s : RunnerState)
    (hok : (EditorHostRunner.open env s).ok = true) :
    (EditorHostRunner.open env s).state = ⟨true, true, true⟩ := by
  obtain ⟨a, b, c, d, f, g⟩ := env
  revert hok
  cases a <;> cases b <;> cases c <;> cases d <;> cases f <;> cases g <;>
    simp [EditorHostRunner.open, cleanupOnFailure]

theorem capturePlugin_resolveFail (env : Env) (opts : ScreenshotOptions)
    (h : resolvedUid env opts = none) :
    capturePlugin env opts =
      (false, [Ev.stderrLine "class filter resolution failed"]) := by
  unfold capturePlugin
  rw [h]

theorem capturePlugin_openOk (env : Env) (opts : ScreenshotOptions)
    (u : Option String) (h : resolvedUid env opts = some u)
    (hok : (EditorHostRunner.open env.openEnv RunnerState.initial).ok = true) :
    capturePlugin env opts =
      ((captureWindowToFile env.modernCapture true true).1,
        Ev.modernOpen u ::
          ((EditorHostRunner.open env.openEnv RunnerState.initial).events ++
          (captureWindowToFile env.modernCapture true true).2 ++
          [Ev.windowOrderOut] ++
          (EditorHostRunner.close env.openEnv.appAvailable ⟨true, true, true⟩).2)) := by
  have hst := open_ok_state env.openEnv RunnerState.initial hok
  unfold capturePlugin
  rw [h]
  simp [hok, hst]

theorem capturePlugin_openFail (env : Env) (opts : ScreenshotOptions)
    (u : Option String) (h : resolvedUid env opts = some u)
    (hok : (EditorHostRunner.open env.openEnv RunnerState.initial).ok = false) :
    capturePlugin env opts =
      ((captureWithLegacyHost env.moduleClasses env.legacy opts).1,
        Ev.modernOpen u ::
          ((EditorHostRunner.open env.openEnv RunnerState.initial).events ++
          Ev.stderrLine "EditorHost failed to open; falling back to legacy host" ::
          Ev.legacyCall opts.classNameFilter ::
          (captureWithLegacyHost env.moduleClasses env.legacy opts).2)) := by
  unfold capturePlugin
  rw [h]
  simp [hok]

theorem runner_events_no_write (env : OpenEnv) (s : RunnerState) :
    (EditorHostRunner.open env s).events.all (fun e => !e.isPngWrite) = true :=
  allWeaken (open_events_runner env s)
    (fun e => by cases e <;> simp [Ev.isRunnerEv, Ev.isPngWrite])

theorem close_events_no_write (app : Bool) (s : RunnerState) :
    (EditorHostRunner.close app s).2.all (fun e => !e.isPngWrite) = true :=
  allWeaken (close_events_runner app s)
    (fun e => by cases e <;> simp [Ev.isRunnerEv, Ev.isPngWrite])

theorem legacy_false_no_write (mod : Option (List ClassInfo))
    (lenv : LegacyEnv) (opts : ScreenshotOptions)
    (hf : (captureWithLegacyHost mod lenv opts).1 = false) :
    (captureWithLegacyHost mod lenv opts).2.all (fun e => !e.isPngWrite) = true := by
  cases mod with
  | none => simp [captureWithLegacyHost, Ev.isPngWrite]
  | some infos =>
    cases hsel : legacySelectClass opts.classNameFilter infos with
    | none => simp [captureWithLegacyHost, hsel, Ev.isPngWrite]
    | some chosen =>
      simp only [captureWithLegacyHost, hsel] at hf ⊢
      split_ifs at hf ⊢ <;>
        first
          | decide
          | (rw [List.all_append, List.all_append, List.all_append]
             rw [Bool.and_eq_true, Bool.and_eq_true, Bool.and_eq_true]
             exact ⟨⟨⟨by decide, by decide⟩,
               capture_false_no_write lenv.capture true true hf⟩, by decide⟩)

theorem capturePlugin_false_no_write (env : Env) (opts : ScreenshotOptions)
    (hf : (capturePlugin env opts).1 = false) :
    (capturePlugin env opts).2.all (fun e => !e.isPngWrite) = true := by
  cases hres : resolvedUid env opts with
  | none => simp [capturePlugin_resolveFail env opts hres, Ev.isPngWrite]
  | some u =>
    cases hok : (EditorHostRunner.open env.openEnv RunnerState.initial).ok with
    | true =>
      rw [capturePlugin_openOk env opts u hres hok] at hf ⊢
      rw [List.all_cons, Bool.and_eq_true]
      refine ⟨rfl, ?_⟩
      rw [List.all_append, List.all_append, List.all_append]
      rw [Bool.and_eq_true, Bool.and_eq_true, Bool.and_eq_true]
      exact ⟨⟨⟨runner_events_no_write env.openEnv RunnerState.initial,
        capture_false_no_write env.modernCapture true true hf⟩, by decide⟩,
        close_events_no_write env.openEnv.appAvailable ⟨true, true, true⟩⟩
    | false =>
      rw [capturePlugin_openFail env opts u hres hok] at hf ⊢
      rw [List.all_cons, Bool.and_eq_true]
      refine ⟨rfl, ?_⟩
      rw [List.all_append, Bool.and_eq_true]
      refine ⟨runner_events_no_write env.openEnv RunnerState.initial, ?_⟩
      rw [List.all_cons, Bool.and_eq_true]
      refine ⟨by decide, ?_⟩
      rw [List.all_cons, Bool.and_eq_true]
      exact ⟨rfl, legacy_false_no_write env.moduleClasses env.legacy opts hf⟩

/-! ### Claim theorems -/

/-- C9: `EditorHostRunner::close` is idempotent: closing a never-opened
runner is a no-op (no termination, window, or platform-registration
actions, state unchanged), and after any close the runner's members are all
null, so a second close is likewise a no-op. -/
theorem close_idempotent :
    (∀ app : Bool, EditorHostRunner.close app RunnerState.initial =
      (RunnerState.initial, [])) ∧
    (∀ (app app2 : Bool) (s : RunnerState),
      (EditorHostRunner.close app s).1 = RunnerState.initial ∧
      EditorHostRunner.close app2 (EditorHostRunner.close app s).1 =
        ((EditorHostRunner.close app s).1, [])) := by
  constructor
  · intro app
    rfl
  · intro app app2 s
    obtain ⟨a, w, v⟩ := s
    cases app <;> cases app2 <;> cases a <;> cases w <;> cases v <;>
      exact ⟨rfl, rfl⟩

/-- C10: for both handler objects, `queryInterface` with a null output
pointer yields `kInvalidArgument` with no store; the object's own iid or the
`FUnknown` iid stores the object itself (with an `addRef`) and returns
`kResultTrue`; any other iid stores null and returns `kNoInterface`; hence
on a non-null call the output pointer is always written. -/
theorem queryInterface_contract (iid : Nat) :
    (ScreenshotComponentHandler.queryInterface iid false =
      ⟨TResult.kInvalidArgument, none, false⟩) ∧
    (ScreenshotPlugFrame.queryInterface iid false =
      ⟨TResult.kInvalidArgument, none, false⟩) ∧
    ((iid = iidIComponentHandler ∨ iid = iidFUnknown) →
      ScreenshotComponentHandler.queryInterface iid true =
        ⟨kResultTrue, some QIStored.self, true⟩) ∧
    (¬(iid = iidIComponentHandler ∨ iid = iidFUnknown) →
      ScreenshotComponentHandler.queryInterface iid true =
        ⟨TResult.kNoInterface, some QIStored.nullObj, false⟩) ∧
    ((iid = iidIPlugFrame ∨ iid = iidFUnknown) →
      ScreenshotPlugFrame.queryInterface iid true =
        ⟨kResultTrue, some QIStored.self, true⟩) ∧
    (¬(iid = iidIPlugFrame ∨ iid = iidFUnknown) →
      ScreenshotPlugFrame.queryInterface iid true =
        ⟨TResult.kNoInterface, some QIStored.nullObj, false⟩) ∧
    (ScreenshotComponentHandler.queryInterface iid true).stored ≠ none ∧
    (ScreenshotPlugFrame.queryInterface iid true).stored ≠ none := by
  by_cases hc : iid = iidIComponentHandler ∨ iid = iidFUnknown <;>
    by_cases hp : iid = iidIPlugFrame ∨ iid = iidFUnknown <;>
      simp [ScreenshotComponentHandler.queryInterface,
        ScreenshotPlugFrame.queryInterface, hc, hp]

/-- Witness for C10 at concrete interface ids. -/
theorem queryInterface_contract_witness :
    ScreenshotComponentHandler.queryInterface iidFUnknown true =
      ⟨kResultTrue, some QIStored.self, true⟩ ∧
    ScreenshotPlugFrame.queryInterface 99 true =
      ⟨TResult.kNoInterface, some QIStored.nullObj, false⟩ :=
  ⟨(queryInterface_contract iidFUnknown).2.2.1 (Or.inr rfl),
   (queryInterface_contract 99).2.2.2.2.2.1 (by decide)⟩

/-- C4 counterexample: with the EditorHost application available and its
`init` throwing (the explicit kill signal), `EditorHostRunner::open`
returns false, but the failure cleanup performs no order-out and no close
of any window — the claim's "window is ordered out and closed" does not
happen on this failure path. -/
theorem open_failure_counterexample :
    (EditorHostRunner.open ⟨true, true, true, true, true, true⟩
      RunnerState.initial).ok = false ∧
    Ev.runnerOrderOut ∉ (EditorHostRunner.open ⟨true, true, true, true, true, true⟩
      RunnerState.initial).events ∧
    Ev.runnerWindowClose ∉ (EditorHostRunner.open ⟨true, true, true, true, true, true⟩
      RunnerState.initial).events := by decide

/-- C4 (amended): whenever the modern host path's open fails with the
application available (init throws — including the explicit kill signal —
or no window is produced, or the native handle is not NSView-backed),
`EditorHostRunner::open` returns false only after releasing the host
resources it holds: the host application is terminated, the platform
window registration is cleared, and the runner's members are reset, so
`window()` and `contentView()` are null afterwards.  No window is ordered
out or closed during the failure cleanup (the runner records no native
window on any failure path). -/
theorem open_failure_cleanup (env : OpenEnv)
    (happ : env.appAvailable = true)
    (hfail : (EditorHostRunner.open env RunnerState.initial).ok = false) :
    (EditorHostRunner.open env RunnerState.initial).state = RunnerState.initial ∧
    (EditorHostRunner.open env RunnerState.initial).state.nsWindow = false ∧
    (EditorHostRunner.open env RunnerState.initial).state.nsContentView = false ∧
    Ev.runnerTerminate ∈ (EditorHostRunner.open env RunnerState.initial).events ∧
    Ev.platformClear ∈ (EditorHostRunner.open env RunnerState.initial).events ∧
    Ev.runnerOrderOut ∉ (EditorHostRunner.open env RunnerState.initial).events ∧
    Ev.runnerWindowClose ∉ (EditorHostRunner.open env RunnerState.initial).events := by
  obtain ⟨a, b, c, d, f, g⟩ := env
  revert happ hfail
  cases a <;> cases b <;> cases c <;> cases d <;> cases f <;> cases g <;> decide

/-- Witness for C4's amended theorem: a failed open (no window produced)
with all hypotheses discharged at a concrete environment. -/
theorem open_failure_cleanup_witness :
    (EditorHostRunner.open ⟨true, false, false, true, true, true⟩
      RunnerState.initial).state = RunnerState.initial ∧
    (EditorHostRunner.open ⟨true, false, false, true, true, true⟩
      RunnerState.initial).state.nsWindow = false ∧
    (EditorHostRunner.open ⟨true, false, false, true, true, true⟩
      RunnerState.initial).state.nsContentView = false ∧
    Ev.runnerTerminate ∈ (EditorHostRunner.open ⟨true, false, false, true, true, true⟩
      RunnerState.initial).events ∧
    Ev.platformClear ∈ (EditorHostRunner.open ⟨true, false, false, true, true, true⟩
      RunnerState.initial).events ∧
    Ev.runnerOrderOut ∉ (EditorHostRunner.open ⟨true, false, false, true, true, true⟩
      RunnerState.initial).events ∧
    Ev.runnerWindowClose ∉ (EditorHostRunner.open ⟨true, false, false, true, true, true⟩
      RunnerState.initial).events :=
  open_failure_cleanup ⟨true, false, false, true, true, true⟩ rfl (by decide)

/-- C5 counterexample: when the editor view has been requested (and the
frame handler installed) but `attached` fails, `captureWithLegacyHost`
returns without detaching the view, clearing the frame handler, clearing
the component handler, or hiding the window — the claimed teardown does
not run on this exit path after the view was requested. -/
theorem legacy_teardown_counterexample :
    ((captureWithLegacyHost (some [⟨"A", kVstAudioEffectClass, "u"⟩])
      ⟨true, true, true, false, true, ⟨true, true, true, 1, 1, true, true⟩⟩
      {}).1 = false) ∧
    Ev.frameSet ∈ (captureWithLegacyHost (some [⟨"A", kVstAudioEffectClass, "u"⟩])
      ⟨true, true, true, false, true, ⟨true, true, true, 1, 1, true, true⟩⟩ {}).2 ∧
    Ev.viewRemoved ∉ (captureWithLegacyHost (some [⟨"A", kVstAudioEffectClass, "u"⟩])
      ⟨true, true, true, false, true, ⟨true, true, true, 1, 1, true, true⟩⟩ {}).2 ∧
    Ev.frameCleared ∉ (captureWithLegacyHost (some [⟨"A", kVstAudioEffectClass, "u"⟩])
      ⟨true, true, true, false, true, ⟨true, true, true, 1, 1, true, true⟩⟩ {}).2 ∧
    Ev.handlerCleared ∉ (captureWithLegacyHost (some [⟨"A", kVstAudioEffectClass, "u"⟩])
      ⟨true, true, true, false, true, ⟨true, true, true, 1, 1, true, true⟩⟩ {}).2 ∧
    Ev.windowOrderOut ∉ (captureWithLegacyHost (some [⟨"A", kVstAudioEffectClass, "u"⟩])
      ⟨true, true, true, false, true, ⟨true, true, true, 1, 1, true, true⟩⟩ {}).2 := by
  decide

/-- C5 (amended): on every exit path of the legacy host path after the
editor view has been successfully attached — success as well as downstream
capture failure — `captureWithLegacyHost` detaches the view, clears the
view's frame handler, clears the controller's component handler and hides
the window before returning (followed only by the context-guard clear);
the attach-failure exit, by contrast, returns without this teardown. -/
theorem legacy_teardown (infos : List ClassInfo) (lenv : LegacyEnv)
    (opts : ScreenshotOptions)
    (hsel : legacySelectClass opts.classNameFilter infos ≠ none)
    (h1 : lenv.providerInitOk = true) (h2 : lenv.controllerPresent = true)
    (h3 : lenv.viewCreated = true) (h4 : lenv.attachOk = true) :
    ∃ pre, (captureWithLegacyHost (some infos) lenv opts).2 =
      pre ++ [Ev.viewRemoved, Ev.frameCleared, Ev.handlerCleared,
        Ev.windowOrderOut, Ev.ctxClear] := by
  obtain ⟨ci, hci⟩ := Option.ne_none_iff_exists'.mp hsel
  simp only [captureWithLegacyHost, hci]
  rw [h1, h2, h3, h4]
  refine ⟨[Ev.ctxSet, Ev.handlerSet, Ev.windowCreate, Ev.frameSet,
    Ev.viewAttached] ++ (if lenv.getSizeOk then [Ev.windowResize] else []) ++
    (captureWindowToFile lenv.capture true true).2, ?_⟩
  simp

/-- Witness for C5's amended theorem at a concrete bundle and environment
(capture succeeding). -/
theorem legacy_teardown_witness :
    ∃ pre, (captureWithLegacyHost (some [⟨"A", kVstAudioEffectClass, "u"⟩])
      ⟨true, true, true, true, true, ⟨true, true, true, 1, 1, true, true⟩⟩
      {}).2 =
      pre ++ [Ev.viewRemoved, Ev.frameCleared, Ev.handlerCleared,
        Ev.windowOrderOut, Ev.ctxClear] :=
  legacy_teardown [⟨"A", kVstAudioEffectClass, "u"⟩]
    ⟨true, true, true, true, true, ⟨true, true, true, 1, 1, true, true⟩⟩
    {} (by decide) rfl rfl rfl rfl

/-- C3: a failure to write the encoded PNG data is only logged to standard
error and does not change the boolean result: the result of
`captureWindowToFile` is independent of the write outcome; whenever a
write was attempted (a bitmap had been produced) the function returns true
even if the write failed, adding only the `Failed to write PNG` line; and
`capturePlugin` can thus report overall success while the file write
failed. -/
theorem write_failure_only_logged (env : CaptureEnv) (w cv : Bool) :
    ((captureWindowToFile env w cv).1 =
      (captureWindowToFile { env with writeSucceeds := true } w cv).1) ∧
    (Ev.pngWrite false ∈ (captureWindowToFile env w cv).2 →
      (captureWindowToFile env w cv).1 = true ∧
      Ev.stderrLine "Failed to write PNG" ∈ (captureWindowToFile env w cv).2) ∧
    ((capturePlugin envWriteFailDemo {}).1 = true ∧
      Ev.pngWrite false ∈ (capturePlugin envWriteFailDemo {}).2) := by
  refine ⟨?_, ?_, by decide⟩
  · obtain ⟨cf, si, cr, bw, bh, ma, ws⟩ := env
    cases w <;> cases cv <;> cases cf <;> cases si <;> cases cr <;>
      cases ma <;> cases ws <;>
      simp [captureWindowToFile, writeStage] <;>
      split_ifs <;> rfl
  · intro hmem
    obtain ⟨cf, si, cr, bw, bh, ma, ws⟩ := env
    cases w <;> cases cv <;> cases cf <;> cases si <;> cases cr <;>
      cases ma <;> cases ws <;>
      revert hmem <;>
      simp [captureWindowToFile, writeStage] <;>
      split_ifs <;> simp

/-- Witness for C3 at a concrete environment whose snapshot capture
succeeds and whose file write fails. -/
theorem write_failure_only_logged_witness :
    (captureWindowToFile ⟨true, true, true, 1, 1, true, false⟩ true true).1 = true ∧
    Ev.stderrLine "Failed to write PNG" ∈
      (captureWindowToFile ⟨true, true, true, 1, 1, true, false⟩ true true).2 :=
  (write_failure_only_logged ⟨true, true, true, 1, 1, true, false⟩ true true).2.1
    (by decide)

/-- C6 counterexample: when the compositor-snapshot symbol is unavailable,
the code falls through silently — no diagnostic line is printed at all —
contradicting the claim that a diagnostic is logged when the symbol is
unavailable. -/
theorem capture_order_counterexample :
    ((captureWindowToFile ⟨false, false, true, 1, 1, true, true⟩ true true).1 = true) ∧
    (captureWindowToFile ⟨false, false, true, 1, 1, true, true⟩ true true).2.countP
      (fun e => e.isStderrLine) = 0 ∧
    Ev.snapshotCall ∉
      (captureWindowToFile ⟨false, false, true, 1, 1, true, true⟩ true true).2 ∧
    Ev.cachingRender ∈
      (captureWindowToFile ⟨false, false, true, 1, 1, true, true⟩ true true).2 := by
  decide

/-- C6 (amended): the capture procedure tries image sources in a fixed
order: the dynamically resolved compositor snapshot call is attempted iff
the symbol is available, and the no-image diagnostic is printed iff the
symbol is available but the call returned no image (an unavailable symbol
falls through silently); if no snapshot image was obtained it renders the
view via the caching-display API when available; otherwise it falls back
to manual bitmap allocation plus explicit context rendering, and returns
false when the manual path is reached with non-positive view bounds or
when the manual bitmap cannot be allocated. -/
theorem capture_fallback_order (env : CaptureEnv) :
    ((env.captureFnAvailable = true ∧ env.snapshotImage = true) →
      (captureWindowToFile env true true).1 = true ∧
      Ev.cachingRender ∉ (captureWindowToFile env true true).2 ∧
      Ev.manualRender ∉ (captureWindowToFile env true true).2) ∧
    (Ev.snapshotCall ∈ (captureWindowToFile env true true).2 ↔
      env.captureFnAvailable = true) ∧
    (Ev.stderrLine snapshotDiag ∈ (captureWindowToFile env true true).2 ↔
      (env.captureFnAvailable = true ∧ env.snapshotImage = false)) ∧
    (¬(env.captureFnAvailable = true ∧ env.snapshotImage = true) →
      env.cachingRepAvailable = true →
      (captureWindowToFile env true true).1 = true ∧
      Ev.cachingRender ∈ (captureWindowToFile env true true).2 ∧
      Ev.manualRender ∉ (captureWindowToFile env true true).2) ∧
    (¬(env.captureFnAvailable = true ∧ env.snapshotImage = true) →
      env.cachingRepAvailable = false →
      (env.boundsWidth ≤ 0 ∨ env.boundsHeight ≤ 0) →
      (captureWindowToFile env true true).1 = false ∧
      Ev.pngWrite env.writeSucceeds ∉ (captureWindowToFile env true true).2) ∧
    (¬(env.captureFnAvailable = true ∧ env.snapshotImage = true) →
      env.cachingRepAvailable = false →
      0 < env.boundsWidth → 0 < env.boundsHeight →
      env.manualRepAllocated = false →
      (captureWindowToFile env true true).1 = false) ∧
    (¬(env.captureFnAvailable = true ∧ env.snapshotImage = true) →
      env.cachingRepAvailable = false →
      0 < env.boundsWidth → 0 < env.boundsHeight →
      env.manualRepAllocated = true →
      (captureWindowToFile env true true).1 = true ∧
      Ev.manualRender ∈ (captureWindowToFile env true true).2) := by
  obtain ⟨cf, si, cr, bw, bh, ma, ws⟩ := env
  cases cf <;> cases si <;> cases cr <;> cases ma <;> cases ws <;>
    by_cases hw : bw ≤ 0 <;> by_cases hh : bh ≤ 0 <;>
    simp_all [captureWindowToFile, writeStage, snapshotDiag, Int.not_le] <;>
    first
      | omega
      | (split_ifs <;> simp_all <;> try omega)

/-- Witness for C6 at a concrete environment taking the caching-display
fallback. -/
theorem capture_fallback_order_witness :
    (captureWindowToFile ⟨false, false, true, 1, 1, true, true⟩ true true).1 = true ∧
    Ev.cachingRender ∈
      (captureWindowToFile ⟨false, false, true, 1, 1, true, true⟩ true true).2 ∧
    Ev.manualRender ∉
      (captureWindowToFile ⟨false, false, true, 1, 1, true, true⟩ true true).2 :=
  (capture_fallback_order ⟨false, false, true, 1, 1, true, true⟩).2.2.2.1
    (by decide) rfl

/-- C2: `resolveClassFilterToUid` considers only classes in the
audio-effect category and matches the filter by exact (case-sensitive)
string equality — a resolved UID always comes from such a class, and if no
audio-effect class bears the filter name resolution fails; and on
resolution failure `capturePlugin` returns false without invoking either
host path, creating no window and attempting no file write. -/
theorem class_filter_resolution (infos : List ClassInfo)
    (className uid : String) (env : Env) (opts : ScreenshotOptions) :
    (resolveLoop infos className = some uid →
      ∃ i ∈ infos, i.category = kVstAudioEffectClass ∧ i.name = className ∧
        i.uid = uid) ∧
    ((∀ i ∈ infos, i.category = kVstAudioEffectClass → i.name ≠ className) →
      resolveLoop infos className = none) ∧
    (opts.classNameFilter ≠ "" →
      resolveClassFilterToUid env.moduleClasses opts.classNameFilter = none →
      (capturePlugin env opts).1 = false ∧
      (∀ u, Ev.modernOpen u ∉ (capturePlugin env opts).2) ∧
      (∀ f, Ev.legacyCall f ∉ (capturePlugin env opts).2) ∧
      Ev.windowCreate ∉ (capturePlugin env opts).2 ∧
      Ev.platformWindowCreate ∉ (capturePlugin env opts).2 ∧
      (∀ b, Ev.pngWrite b ∉ (capturePlugin env opts).2)) := by
  refine ⟨?_, ?_, ?_⟩
  · induction infos with
    | nil => intro h; simp [resolveLoop] at h
    | cons i rest ih =>
      intro h
      by_cases hcat : i.category = kVstAudioEffectClass
      · by_cases hname : i.name = className
        · refine ⟨i, List.mem_cons_self i rest, hcat, hname, ?_⟩
          simp only [resolveLoop, if_neg (not_not_intro hcat),
            if_pos hname] at h
          exact Option.some.inj h
        · simp only [resolveLoop, if_neg (not_not_intro hcat),
            if_neg hname] at h
          obtain ⟨j, hjmem, hj⟩ := ih h
          exact ⟨j, List.mem_cons_of_mem i hjmem, hj⟩
      · simp only [resolveLoop, if_pos hcat] at h
        obtain ⟨j, hjmem, hj⟩ := ih h
        exact ⟨j, List.mem_cons_of_mem i hjmem, hj⟩
  · induction infos with
    | nil => intro _; rfl
    | cons i rest ih =>
      intro hall
      by_cases hcat : i.category = kVstAudioEffectClass
      · simp only [resolveLoop, if_neg (not_not_intro hcat),
          if_neg (hall i (List.mem_cons_self i rest) hcat)]
        exact ih (fun j hj hcatj => hall j (List.mem_cons_of_mem i hj) hcatj)
      · simp only [resolveLoop, if_pos hcat]
        exact ih (fun j hj hcatj => hall j (List.mem_cons_of_mem i hj) hcatj)
  · intro hne hres
    have h : resolvedUid env opts = none := by
      unfold resolvedUid
      rw [if_neg hne, hres]
    rw [capturePlugin_resolveFail env opts h]
    refine ⟨rfl, ?_, ?_, ?_, ?_, ?_⟩ <;> simp

/-- Witness for C2: a bundle with one audio-effect class named `A` and a
filter `B` that matches nothing — capture fails with no window creation. -/
theorem class_filter_resolution_witness :
    (capturePlugin ⟨some [⟨"A", kVstAudioEffectClass, "u"⟩],
      ⟨true, false, true, true, true, true⟩,
      ⟨true, true, true, 1, 1, true, true⟩,
      ⟨true, true, true, true, true, ⟨true, true, true, 1, 1, true, true⟩⟩⟩
      ⟨1024, 768, "B"⟩).1 = false ∧
    Ev.windowCreate ∉ (capturePlugin ⟨some [⟨"A", kVstAudioEffectClass, "u"⟩],
      ⟨true, false, true, true, true, true⟩,
      ⟨true, true, true, 1, 1, true, true⟩,
      ⟨true, true, true, true, true, ⟨true, true, true, 1, 1, true, true⟩⟩⟩
      ⟨1024, 768, "B"⟩).2 :=
  ⟨((class_filter_resolution [] "" "" _ _).2.2 (by decide) (by decide)).1,
   ((class_filter_resolution [] "" "" _ _).2.2 (by decide) (by decide)).2.2.2.1⟩

/-- C8: the CLI maps outcomes to exit statuses exactly as specified: fewer
than two positional arguments (argc < 3) prints the usage line — which
starts with "Usage" — to standard error and exits 1; when `capturePlugin`
reports failure the CLI exits 2 and no file write was attempted (in
particular a bundle whose module cannot be loaded, with the modern open
failing too, makes `capturePlugin` fail); success exits 0. -/
theorem cli_exit_codes (args : List String) (env : Env) :
    (args.length < 3 →
      mainFn args env = (1, [Ev.stderrLine usageMessage]) ∧
      ("Usage".toList).isPrefixOf usageMessage.toList = true) ∧
    (3 ≤ args.length →
      ((capturePlugin env {}).1 = false →
        (mainFn args env).1 = 2 ∧
        (mainFn args env).2.all (fun e => !e.isPngWrite) = true) ∧
      (env.moduleClasses = none →
        (EditorHostRunner.open env.openEnv RunnerState.initial).ok = false →
        (capturePlugin env {}).1 = false) ∧
      ((capturePlugin env {}).1 = true → (mainFn args env).1 = 0)) := by
  constructor
  · intro hlt
    refine ⟨?_, by decide⟩
    unfold mainFn
    rw [if_pos hlt]
  · intro hge
    have hnot : ¬ args.length < 3 := not_lt.mpr hge
    refine ⟨?_, ?_, ?_⟩
    · intro hf
      constructor
      · unfold mainFn
        rw [if_neg hnot]
        simp [hf]
      · unfold mainFn
        rw [if_neg hnot]
        exact capturePlugin_false_no_write env {} hf
    · intro hmod hok
      have h : resolvedUid env {} = some none := by
        unfold resolvedUid
        rfl
      rw [capturePlugin_openFail env {} none h hok]
      show (captureWithLegacyHost env.moduleClasses env.legacy {}).1 = false
      rw [hmod]
      simp [captureWithLegacyHost]
    · intro ht
      unfold mainFn
      rw [if_neg hnot]
      simp [ht]

/-- Witness for C8: invoking the CLI with a single argument exits 1 with
the usage line. -/
theorem cli_exit_codes_witness :
    mainFn ["vstface"] ⟨none, ⟨true, true, true, true, true, true⟩,
      ⟨true, true, true, 1, 1, true, true⟩,
      ⟨true, true, true, true, true, ⟨true, true, true, 1, 1, true, true⟩⟩⟩ =
      (1, [Ev.stderrLine usageMessage]) ∧
    ("Usage".toList).isPrefixOf usageMessage.toList = true :=
  (cli_exit_codes ["vstface"] _).1 (by decide)

theorem capturePlugin_openOk_snd (env : Env) (opts : ScreenshotOptions)
    (u : Option String) (h : resolvedUid env opts = some u)
    (hok : (EditorHostRunner.open env.openEnv RunnerState.initial).ok = true) :
    (capturePlugin env opts).2 =
      Ev.modernOpen u ::
        ((EditorHostRunner.open env.openEnv RunnerState.initial).events ++
        (captureWindowToFile env.modernCapture true true).2 ++
        [Ev.windowOrderOut] ++
        (EditorHostRunner.close env.openEnv.appAvailable ⟨true, true, true⟩).2) := by
  rw [capturePlugin_openOk env opts u h hok]

theorem capturePlugin_openOk_fst (env : Env) (opts : ScreenshotOptions)
    (u : Option String) (h : resolvedUid env opts = some u)
    (hok : (EditorHostRunner.open env.openEnv RunnerState.initial).ok = true) :
    (capturePlugin env opts).1 = (captureWindowToFile env.modernCapture true true).1 := by
  rw [capturePlugin_openOk env opts u h hok]

theorem capturePlugin_openFail_snd (env : Env) (opts : ScreenshotOptions)
    (u : Option String) (h : resolvedUid env opts = some u)
    (hok : (EditorHostRunner.open env.openEnv RunnerState.initial).ok = false) :
    (capturePlugin env opts).2 =
      Ev.modernOpen u ::
        ((EditorHostRunner.open env.openEnv RunnerState.initial).events ++
        Ev.stderrLine "EditorHost failed to open; falling back to legacy host" ::
        Ev.legacyCall opts.classNameFilter ::
        (captureWithLegacyHost env.moduleClasses env.legacy opts).2) := by
  rw [capturePlugin_openFail env opts u h hok]

theorem capturePlugin_openFail_fst (env : Env) (opts : ScreenshotOptions)
    (u : Option String) (h : resolvedUid env opts = some u)
    (hok : (EditorHostRunner.open env.openEnv RunnerState.initial).ok = false) :
    (capturePlugin env opts).1 =
      (captureWithLegacyHost env.moduleClasses env.legacy opts).1 := by
  rw [capturePlugin_openFail env opts u h hok]

/-- C1: the orchestrator's fallback order: once the resolution stage has
passed (no filter supplied, or the filter resolved), the modern host path
is always invoked first — the trace begins with the single
`EditorHostRunner::open` invocation; the legacy host path is invoked iff
the modern open failed (for any reason), exactly once and with the same
class-name filter; and when the legacy path runs, its result is
`capturePlugin`'s result — no further attempt follows it. -/
theorem fallback_order (env : Env) (opts : ScreenshotOptions)
    (hres : resolvedUid env opts ≠ none) :
    (∃ u rest, (capturePlugin env opts).2 = Ev.modernOpen u :: rest) ∧
    (capturePlugin env opts).2.countP (fun e => e.isModernOpen) = 1 ∧
    ((∃ f, Ev.legacyCall f ∈ (capturePlugin env opts).2) ↔
      (EditorHostRunner.open env.openEnv RunnerState.initial).ok = false) ∧
    (∀ f, Ev.legacyCall f ∈ (capturePlugin env opts).2 →
      f = opts.classNameFilter) ∧
    ((EditorHostRunner.open env.openEnv RunnerState.initial).ok = false →
      (capturePlugin env opts).2.countP (fun e => e.isLegacyCall) = 1 ∧
      (capturePlugin env opts).1 =
        (captureWithLegacyHost env.moduleClasses env.legacy opts).1) := by
  obtain ⟨u, hu⟩ := Option.ne_none_iff_exists'.mp hres
  have hA := runner_events_flags env.openEnv RunnerState.initial
  cases hok : (EditorHostRunner.open env.openEnv RunnerState.initial).ok with
  | true =>
    rw [capturePlugin_openOk_snd env opts u hu hok]
    have hB := capture_events_flags env.modernCapture true true
    have hC := close_events_flags env.openEnv.appAvailable ⟨true, true, true⟩
    have hrest : ∀ e ∈ (EditorHostRunner.open env.openEnv RunnerState.initial).events ++
        (captureWindowToFile env.modernCapture true true).2 ++
        [Ev.windowOrderOut] ++
        (EditorHostRunner.close env.openEnv.appAvailable ⟨true, true, true⟩).2,
        e.isModernOpen = false ∧ e.isLegacyCall = false := by
      intro e he
      rcases List.mem_append.mp he with he | he
      · rcases List.mem_append.mp he with he | he
        · rcases List.mem_append.mp he with he | he
          · exact ⟨(hA e he).1, (hA e he).2.1⟩
          · exact ⟨(hB e he).1, (hB e he).2.1⟩
        · rw [List.mem_singleton] at he
          subst he
          exact ⟨rfl, rfl⟩
      · exact ⟨(hC e he).1, (hC e he).2.1⟩
    refine ⟨⟨u, _, rfl⟩, ?_, ?_, ?_, ?_⟩
    · rw [List.countP_cons, countP_zero_of_flags (fun e he => (hrest e he).1)]
      simp [Ev.isModernOpen]
    · constructor
      · rintro ⟨f, hf⟩
        rcases List.mem_cons.mp hf with h | hf
        · simp at h
        · have h2 := (hrest _ hf).2
          simp [Ev.isLegacyCall] at h2
      · intro h
        simp at h
    · intro f hf
      rcases List.mem_cons.mp hf with h | hf
      · simp at h
      · have h2 := (hrest _ hf).2
        simp [Ev.isLegacyCall] at h2
    · intro h
      simp at h
  | false =>
    rw [capturePlugin_openFail_snd env opts u hu hok,
      capturePlugin_openFail_fst env opts u hu hok]
    have hL := legacy_events_flags env.moduleClasses env.legacy opts
    refine ⟨⟨u, _, rfl⟩, ?_, ?_, ?_, ?_⟩
    · rw [List.countP_cons, List.countP_append, List.countP_cons,
        List.countP_cons,
        countP_zero_of_flags (fun e he => (hA e he).1),
        countP_zero_of_flags (fun e he => (hL e he).1)]
      rfl
    · constructor
      · intro _
        rfl
      · intro _
        exact ⟨opts.classNameFilter, by simp⟩
    · intro f hf
      rcases List.mem_cons.mp hf with h | hf
      · simp at h
      · rcases List.mem_append.mp hf with hf | hf
        · have h2 := (hA _ hf).2.1
          simp [Ev.isLegacyCall] at h2
        · rcases List.mem_cons.mp hf with h | hf
          · simp at h
          · rcases List.mem_cons.mp hf with h | hf
            · exact Ev.legacyCall.inj h
            · have h2 := (hL _ hf).2
              simp [Ev.isLegacyCall] at h2
    · intro _
      refine ⟨?_, rfl⟩
      rw [List.countP_cons, List.countP_append, List.countP_cons,
        List.countP_cons,
        countP_zero_of_flags (fun e he => (hA e he).2.1),
        countP_zero_of_flags (fun e he => (hL e he).2)]
      rfl

/-- Witness for C1: no filter supplied, modern open fails (init throws),
so the fallback runs: the trace starts with the modern attempt and
contains exactly one legacy invocation. -/
theorem fallback_order_witness :
    (∃ u rest, (capturePlugin ⟨none, ⟨true, true, true, true, true, true⟩,
      ⟨true, true, true, 1, 1, true, true⟩,
      ⟨true, true, true, true, true, ⟨true, true, true, 1, 1, true, true⟩⟩⟩
      {}).2 = Ev.modernOpen u :: rest) ∧
    (capturePlugin ⟨none, ⟨true, true, true, true, true, true⟩,
      ⟨true, true, true, 1, 1, true, true⟩,
      ⟨true, true, true, true, true, ⟨true, true, true, 1, 1, true, true⟩⟩⟩
      {}).2.countP (fun e => e.isLegacyCall) = 1 := by
  have h := fallback_order ⟨none, ⟨true, true, true, true, true, true⟩,
    ⟨true, true, true, 1, 1, true, true⟩,
    ⟨true, true, true, true, true, ⟨true, true, true, 1, 1, true, true⟩⟩⟩
    {} (by decide)
  exact ⟨h.1, (h.2.2.2.2 (by decide)).1⟩

theorem legacy_ctx_bracket (mod : Option (List ClassInfo)) (lenv : LegacyEnv)
    (opts : ScreenshotOptions) :
    (captureWithLegacyHost mod lenv opts).2.all (fun e => !e.isCtx) = true ∨
    ∃ mid, (captureWithLegacyHost mod lenv opts).2 =
      Ev.ctxSet :: (mid ++ [Ev.ctxClear]) ∧
      mid.all (fun e => !e.isCtx) = true := by
  have hcap := capture_no_ctx lenv.capture true true
  cases mod with
  | none =>
    left
    rfl
  | some infos =>
    cases hsel : legacySelectClass opts.classNameFilter infos with
    | none =>
      left
      simp [captureWithLegacyHost, hsel, Ev.isCtx]
    | some chosen =>
      right
      simp only [captureWithLegacyHost, hsel]
      split_ifs with h1 h2 h3 h4 h5
      · exact ⟨[Ev.stderrLine "Failed to initialize plug-in component/controller"],
          rfl, rfl⟩
      · exact ⟨[Ev.stderrLine "No IEditController"], rfl, rfl⟩
      · exact ⟨[Ev.handlerSet, Ev.stderrLine "No editor view"], rfl, rfl⟩
      · exact ⟨[Ev.handlerSet, Ev.windowCreate, Ev.frameSet,
          Ev.stderrLine "PlugView attach failed"], rfl, rfl⟩
      · refine ⟨[Ev.handlerSet, Ev.windowCreate, Ev.frameSet, Ev.viewAttached] ++
          [Ev.windowResize] ++ (captureWindowToFile lenv.capture true true).2 ++
          [Ev.viewRemoved, Ev.frameCleared, Ev.handlerCleared, Ev.windowOrderOut],
          ?_, ?_⟩
        · simp
        · simp [List.all_append, hcap, Ev.isCtx]
          intro x hx
          have hx2 := List.all_eq_true.mp hcap x hx
          simpa using hx2
      · refine ⟨[Ev.handlerSet, Ev.windowCreate, Ev.frameSet, Ev.viewAttached] ++
          (captureWindowToFile lenv.capture true true).2 ++
          [Ev.viewRemoved, Ev.frameCleared, Ev.handlerCleared, Ev.windowOrderOut],
          ?_, ?_⟩
        · simp
        · simp [List.all_append, hcap, Ev.isCtx]
          intro x hx
          have hx2 := List.all_eq_true.mp hcap x hx
          simpa using hx2

theorem legacy_ctxAfter (mod : Option (List ClassInfo)) (lenv : LegacyEnv)
    (opts : ScreenshotOptions) :
    ctxAfter (captureWithLegacyHost mod lenv opts).2 = false := by
  rcases legacy_ctx_bracket mod lenv opts with hall | ⟨mid, heq, _⟩
  · exact ctxAfter_eq_false_of_no_ctx hall
  · rw [heq]
    simp [ctxAfter, List.foldl_append, List.foldl_cons, ctxStep]

/-- C7: the process-wide VST3 plugin context is scoped exactly to one
legacy host-open attempt: on every return path of `captureWithLegacyHost`
the trace either never touches the context (failure before the
`PluginContextGuard` is constructed) or forms exactly one
`ctxSet` … `ctxClear` bracket — set once by the guard's construction,
cleared once by its destruction, with no context action in between — and
after every `captureWithLegacyHost` and every `capturePlugin` call the
replayed global context is cleared, so it is never left set when no host
session is active. -/
theorem plugin_context_scoped (mod : Option (List ClassInfo))
    (lenv : LegacyEnv) (opts : ScreenshotOptions) (env : Env)
    (opts2 : ScreenshotOptions) :
    ((captureWithLegacyHost mod lenv opts).2.all (fun e => !e.isCtx) = true ∨
      ∃ mid, (captureWithLegacyHost mod lenv opts).2 =
        Ev.ctxSet :: (mid ++ [Ev.ctxClear]) ∧
        mid.all (fun e => !e.isCtx) = true) ∧
    ctxAfter (captureWithLegacyHost mod lenv opts).2 = false ∧
    ctxAfter (capturePlugin env opts2).2 = false := by
  refine ⟨legacy_ctx_bracket mod lenv opts, legacy_ctxAfter mod lenv opts, ?_⟩
  cases hres : resolvedUid env opts2 with
  | none =>
    rw [capturePlugin_resolveFail env opts2 hres]
    rfl
  | some u =>
    cases hok : (EditorHostRunner.open env.openEnv RunnerState.initial).ok with
    | true =>
      rw [capturePlugin_openOk_snd env opts2 u hres hok]
      apply ctxAfter_eq_false_of_no_ctx
      rw [List.all_cons, Bool.and_eq_true]
      refine ⟨rfl, ?_⟩
      rw [List.all_append, List.all_append, List.all_append,
        Bool.and_eq_true, Bool.and_eq_true, Bool.and_eq_true]
      exact ⟨⟨⟨runner_no_ctx env.openEnv RunnerState.initial,
        capture_no_ctx env.modernCapture true true⟩, rfl⟩,
        close_no_ctx env.openEnv.appAvailable ⟨true, true, true⟩⟩
    | false =>
      rw [capturePlugin_openFail_snd env opts2 u hres hok]
      simp only [ctxAfter, List.foldl_cons, List.foldl_append, ctxStep]
      rw [foldl_ctxStep_of_no_ctx _ _ (runner_no_ctx env.openEnv RunnerState.initial)]
      exact legacy_ctxAfter env.moduleClasses env.legacy opts2

end Vstface
